import Mathlib

/-!
Shallow embedding of the passive TCP interception tool (bin/passive/passive.c)
and proofs about its core behaviour: the diagnostic text renderer, the
connection read handler, the accept handler's paired-connection allocation,
the label formatting, passive-listener construction, and startup validation.

Each definition follows the corresponding C function; oracles (environment
records of booleans) stand for the outcomes of the opaque transport and
event-loop collaborators (uinet_* and ev_uinet_* calls), which the source
only sequences.
-/

namespace Passive

/-! ### Diagnostic renderer (passive_receive_cb, lines 161-191)

The renderer scans the received bytes left to right maintaining the C locals
`printable` (length of the current printable run, represented here by the run
itself) and `skipped`.  Output is modelled as a token list: each
`printf("%s", ...)` of a run is a `text` token and each `printf("<%u>", n)`
is a `marker` token.  Note that the source does not reset `skipped` after
printing a marker; the model reproduces that. -/

/-- Printability test from line 164 of the source: 0x20..0x7e, LF, CR, TAB. -/
def is_printable (b : Nat) : Bool :=
  decide ((0x20 ≤ b ∧ b ≤ 0x7e) ∨ b = 0x0a ∨ b = 0x0d ∨ b = 0x09)

/-- Threshold `print_threshold = 10` from line 123. -/
def print_threshold : Nat := 10

/-- One unit of rendered output: a printable run emitted as text, or a
skipped-count marker printed as `<N>`. -/
inductive Tok where
  | text : List Nat → Tok
  | marker : Nat → Tok
  deriving DecidableEq, Repr

/-- Scanner state: output so far, current printable run (the bytes
`buffer[i-printable .. i-1]` of the source), and the `skipped` counter. -/
structure RenderSt where
  out : List Tok
  run : List Nat
  skipped : Nat
  deriving DecidableEq, Repr

/-- Body of the `for` loop at lines 163-184 for one byte. On a printable byte
the run is extended.  On a non-printable byte: if the run reached the
threshold, a pending marker is printed (without resetting `skipped`, exactly
as in the source) and then the run; otherwise the run length is folded into
`skipped`.  Either way the run resets and `skipped` increments by one. -/
def render_step (st : RenderSt) (b : Nat) : RenderSt :=
  if is_printable b then
    { st with run := st.run ++ [b] }
  else
    if st.run.length ≥ print_threshold then
      let out1 := if st.skipped ≠ 0 then st.out ++ [Tok.marker st.skipped] else st.out
      { out := out1 ++ [Tok.text st.run], run := [], skipped := st.skipped + 1 }
    else
      { out := st.out, run := [], skipped := st.skipped + st.run.length + 1 }

/-- End-of-span epilogue at lines 185-189: print a pending marker if any,
then the remaining run (possibly empty) unconditionally. -/
def render_finish (st : RenderSt) : List Tok :=
  let out1 := if st.skipped ≠ 0 then st.out ++ [Tok.marker st.skipped] else st.out
  out1 ++ [Tok.text st.run]

/-- Full renderer for one received span, state reset per invocation
(`skipped = 0; printable = 0;` at lines 161-162). -/
def render (l : List Nat) : List Tok :=
  render_finish (l.foldl render_step ⟨[], [], 0⟩)

/-- Characters actually printed for one token: text bytes verbatim, a marker
as `<`, the decimal digits of N, `>`. -/
def tokChars : Tok → List Char
  | Tok.text bs => bs.map Char.ofNat
  | Tok.marker n => '<' :: (toString n).data ++ ['>']

/-- The rendered text of a span as a string. -/
def renderStr (l : List Nat) : String :=
  String.mk (((render l).map tokChars).flatten)

/-! ### Connection read handler (passive_receive_cb, lines 111-201)

The handler is modelled as a function of the connection's byte counter and
the outcomes reported by the transport: `max_read` (the `uinet_soreadable`
result, a C int), `recv_error` (the `uinet_soreceive` result) and `resid`
(the residual `uio.uio_resid` after the receive). -/

/-- Teardown actions of the `err:` path, lines 197-200, in order. -/
inductive RAction where
  | stopWatcher
  | closeSocket
  | freeConn
  deriving DecidableEq, Repr

/-- Result of one invocation of the read handler. `abortProcess` is a failed
`assert`; `teardown` is the `err:` path; `proceed` carries the updated
`bytes_read` counter (a uint64_t, hence mod 2^64). -/
inductive ReadResult where
  | abortProcess
  | teardown (acts : List RAction)
  | proceed (bytes : Nat)
  deriving DecidableEq, Repr

/-- The `err:` path stops the watcher, closes the socket, frees the record. -/
def err_teardown : List RAction :=
  [RAction.stopWatcher, RAction.closeSocket, RAction.freeConn]

/-- Buffer capacity `BUFFER_SIZE` (64*1024) from line 115. -/
def BUFFER_SIZE : Nat := 64 * 1024

/-- Read size computed at line 134: `imin(max_read, BUFFER_SIZE - 1)`. -/
def read_size_of (avail : Nat) : Nat := min avail (BUFFER_SIZE - 1)

/-- The read handler, lines 127-201.  `assert(max_read != 0)` aborts on a
zero availability; a negative availability takes the `err:` path; a receive
error takes the `err:` path; `assert(uio.uio_resid == 0)` aborts on a short
read; otherwise the counter advances by the read size. -/
def passive_receive (bytes : Nat) (max_read : Int) (recv_error : Int)
    (resid : Nat) : ReadResult :=
  if max_read ≤ 0 then
    if max_read = 0 then ReadResult.abortProcess
    else ReadResult.teardown err_teardown
  else if recv_error ≠ 0 then ReadResult.teardown err_teardown
  else if resid ≠ 0 then ReadResult.abortProcess
  else ReadResult.proceed ((bytes + read_size_of max_read.toNat) % 2 ^ 64)

/-- Counter evolution over one successful read event with `avail` bytes
available (no receive error, zero residual). -/
def read_step (b : Nat) (avail : Nat) : Nat :=
  match passive_receive b (Int.ofNat avail) 0 0 with
  | ReadResult.proceed b' => b'
  | _ => b

/-- Counter after a sequence of successful reads with the given
availabilities, starting from `init`. -/
def run_reads (init : Nat) (l : List Nat) : Nat := l.foldl read_step init

/-! ### Accept handler (accept_cb, lines 204-285)

The environment records which of the fallible collaborator calls succeed;
the state records which resources exist when the handler returns (the `fail:`
path at lines 278-284 releases every resource it finds non-NULL, so after it
nothing acquired in this accept remains). -/

structure AcceptEnv where
  accept_ok : Bool
  attach1_ok : Bool
  peer_nonnull : Bool
  attach2_ok : Bool
  conn_ok : Bool
  peerconn_ok : Bool
  deriving DecidableEq, Repr

structure AcceptState where
  newso_open : Bool
  newpeerso_open : Bool
  soctx_attached : Bool
  peersoctx_attached : Bool
  conn_alloc : Bool
  peerconn_alloc : Bool
  conn_started : Bool
  peerconn_started : Bool
  crashed : Bool
  deriving DecidableEq, Repr

/-- State after the `fail:` label ran: every conditionally-held resource has
been freed, detached or closed, and no watcher was started. -/
def accept_fail_state : AcceptState :=
  ⟨false, false, false, false, false, false, false, false, false⟩

/-- The accept handler.  After a successful accept it attaches the new
socket, derives the passive peer (unchecked in the source; an attach on a
NULL peer fails), attaches the peer, and allocates the two records.  The
source's check after the peer record allocation at line 242 reads
`if (NULL == conn)` — it tests the primary record, not `peerconn`; the model
reproduces that, so a failed peer allocation falls through, the primary
watcher is started, and the NULL `peerconn` is dereferenced at line 264. -/
def accept_cb_model (env : AcceptEnv) : AcceptState :=
  if !env.accept_ok then
    ⟨false, false, false, false, false, false, false, false, false⟩
  else if !env.attach1_ok then accept_fail_state
  else if !(env.peer_nonnull && env.attach2_ok) then accept_fail_state
  else if !env.conn_ok then accept_fail_state
  else if !env.conn_ok then accept_fail_state
  else if !env.peerconn_ok then
    ⟨true, true, true, true, true, false, true, false, true⟩
  else
    ⟨true, true, true, true, true, true, true, true, false⟩

/-- Number of Connections with a started watcher when the handler returns. -/
def liveConns (s : AcceptState) : Nat :=
  (if s.conn_started then 1 else 0) + (if s.peerconn_started then 1 else 0)

/-! ### Connection label (accept_cb, lines 248-266)

The label is produced by one snprintf of the form
`"TAG (%s:%u <- %s:%u)"` whose two string arguments are the results of two
`uinet_inet_ntoa` calls.  In the source both calls write into `buf1` (the
second passes `buf1` with `sizeof(buf2)`), so at format time both `%s`
fields read the same buffer; the model evaluates the conversions left to
right, leaving the peer-address text in the buffer. -/
def mk_label (tag : String) (ntoa : Nat → String)
    (laddr lport raddr rport : Nat) : String :=
  let _buf1_overwritten := ntoa laddr
  let buf1 := ntoa raddr
  tag ++ " (" ++ buf1 ++ ":" ++ toString lport ++ " <- " ++ buf1 ++ ":" ++
    toString rport ++ ")"

/-! ### Passive listener construction (create_passive, lines 288-414) -/

/-- Socket options set at lines 336-367. -/
inductive SockOpt where
  | nodelay
  | keepinit
  | keepidle
  | keepintvl
  | keepcnt
  | reassdl
  deriving DecidableEq, Repr

/-- Outcomes of the fallible collaborator calls inside create_passive, in
source order. -/
structure CreateEnv where
  pton_ok : Bool
  socreate_ok : Bool
  attach_ok : Bool
  passive_ok : Bool
  promisc_ok : Bool
  nodelay_ok : Bool
  keepinit_ok : Bool
  keepidle_ok : Bool
  keepintvl_ok : Bool
  keepcnt_ok : Bool
  reassdl_ok : Bool
  malloc_ok : Bool
  bind_ok : Bool
  listen_ok : Bool
  deriving DecidableEq, Repr

/-- Observable result of create_passive: whether a listener record was
returned, whether non-blocking mode was set, the socket options successfully
set (in order, with values), and which resources are still held on return. -/
structure CreateResult where
  passive : Bool
  nonblocking_set : Bool
  opts : List (SockOpt × Nat)
  soctx_attached : Bool
  listener_open : Bool
  record_alloc : Bool
  watcher_started : Bool
  deriving DecidableEq, Repr

/-- The `fail:` path at lines 408-413: detach the libev context if attached,
close the listen socket if created, free the record if allocated — so no
resource remains held — and return NULL. -/
def cp_fail (nb : Bool) (opts : List (SockOpt × Nat)) : CreateResult :=
  { passive := false, nonblocking_set := nb, opts := opts,
    soctx_attached := false, listener_open := false, record_alloc := false,
    watcher_started := false }

/-- The full option list of lines 336-367: TCP_NODELAY=1, TCP_KEEPINIT=5,
TCP_KEEPIDLE=1, TCP_KEEPINTVL=1, TCP_KEEPCNT=5, TCP_REASSDL=2. -/
def cp_opts_all : List (SockOpt × Nat) :=
  [(SockOpt.nodelay, 1), (SockOpt.keepinit, 5), (SockOpt.keepidle, 1),
   (SockOpt.keepintvl, 1), (SockOpt.keepcnt, 5), (SockOpt.reassdl, 2)]

/-- create_passive, step by step in source order: parse the address, create
the socket, attach it, make it passive, make it promiscuous when the
interface requests it, set non-blocking (return value unchecked at line
332), set the six inherited socket options, allocate the record, bind,
listen, then start the accept watcher.  Every failure takes the `fail:`
path. -/
def create_passive_model (env : CreateEnv) (promisc : Bool) : CreateResult :=
  if !env.pton_ok then cp_fail false []
  else if !env.socreate_ok then cp_fail false []
  else if !env.attach_ok then cp_fail false []
  else if !env.passive_ok then cp_fail false []
  else if promisc && !env.promisc_ok then cp_fail false []
  else if !env.nodelay_ok then cp_fail true []
  else if !env.keepinit_ok then cp_fail true [(SockOpt.nodelay, 1)]
  else if !env.keepidle_ok then
    cp_fail true [(SockOpt.nodelay, 1), (SockOpt.keepinit, 5)]
  else if !env.keepintvl_ok then
    cp_fail true [(SockOpt.nodelay, 1), (SockOpt.keepinit, 5),
      (SockOpt.keepidle, 1)]
  else if !env.keepcnt_ok then
    cp_fail true [(SockOpt.nodelay, 1), (SockOpt.keepinit, 5),
      (SockOpt.keepidle, 1), (SockOpt.keepintvl, 1)]
  else if !env.reassdl_ok then
    cp_fail true [(SockOpt.nodelay, 1), (SockOpt.keepinit, 5),
      (SockOpt.keepidle, 1), (SockOpt.keepintvl, 1), (SockOpt.keepcnt, 5)]
  else if !env.malloc_ok then cp_fail true cp_opts_all
  else if !env.bind_ok then cp_fail true cp_opts_all
  else if !env.listen_ok then cp_fail true cp_opts_all
  else
    { passive := true, nonblocking_set := true, opts := cp_opts_all,
      soctx_attached := true, listener_open := true, record_alloc := true,
      watcher_started := true }

/-! ### Startup validation and sequencing (main, lines 565-650)

The validation loop over the configured servers runs before any interface,
alias or listener is created; it rejects an unset or out-of-range port and a
malformed address, forces the owning interface promiscuous for port 0 and
for the wildcard address, and marks wildcard servers address-any.  The
per-interface promiscuity flags are a `List Bool` indexed by interface;
`uinet_inet_pton` is an opaque collaborator passed in as `pton`. -/

def UINET_INADDR_ANY : Nat := 0

structure SrvCfg where
  listen_addr : String
  listen_port : Int
  iface : Nat
  deriving DecidableEq, Repr

/-- One iteration of the validation loop (lines 565-590) for server `s`,
threading the promiscuity flags and the accumulated addrany marks; `none`
models `return 1` (startup aborts, nothing is created). -/
def validate_step (pton : String → Option Nat)
    (acc : Option (List Bool × List Bool)) (s : SrvCfg) :
    Option (List Bool × List Bool) :=
  match acc with
  | none => none
  | some (pm, anys) =>
    if s.listen_port = -1 then none
    else if s.listen_port < 0 ∨ s.listen_port > 65535 then none
    else
      match pton s.listen_addr with
      | none => none
      | some a =>
        if a = UINET_INADDR_ANY then
          some ((if s.listen_port = 0 then pm.set s.iface true else pm).set
            s.iface true, anys ++ [true])
        else
          some ((if s.listen_port = 0 then pm.set s.iface true else pm),
            anys ++ [false])

/-- The whole validation loop. -/
def validate_servers (pton : String → Option Nat) (servers : List SrvCfg)
    (pm0 : List Bool) : Option (List Bool × List Bool) :=
  servers.foldl (validate_step pton) (some (pm0, []))

/-- The addrany mark the loop records for one server (true exactly when its
address parses to the wildcard). -/
def anyFlag (pton : String → Option Nat) (s : SrvCfg) : Bool :=
  match pton s.listen_addr with
  | some a => decide (a = UINET_INADDR_ANY)
  | none => false

/-- Observable trace of the startup stages that follow validation:
the promiscuity flag each `uinet_ifcreate` call receives (lines 595-617),
the addrany marks, and the indices of servers for which
`uinet_interface_add_alias` is called (lines 620-631: only servers not
marked addrany). -/
structure StartupTrace where
  ifcreate_promisc : List Bool
  addrany : List Bool
  alias_srv_idx : List Nat
  deriving DecidableEq, Repr

/-- Startup pipeline: validation first; only when it passes are interfaces
created (reading the post-validation promiscuity flags), aliases added and
listeners built. -/
def main_startup (pton : String → Option Nat) (servers : List SrvCfg)
    (pm0 : List Bool) : Option StartupTrace :=
  match validate_servers pton servers pm0 with
  | none => none
  | some (pm, anys) =>
    some { ifcreate_promisc := pm, addrany := anys,
           alias_srv_idx := (List.range servers.length).filter
             (fun i => anys.getD i false = false) }

/-- Concrete address parser used by the witnesses. -/
def ptonW : String → Option Nat :=
  fun s =>
    if s = "0.0.0.0" then some 0
    else if s = "10.0.0.1" then some 167772161
    else none

/-! ## Theorems -/

/-- C1: the claim says every accept-ready event yields exactly two or exactly
zero live Connections, with full rollback on any failed step.  The code
violates this: when the peer record allocation fails (calloc returns NULL at
line 241) the check at line 242 tests `conn` instead of `peerconn`, so the
handler proceeds, starts the primary Connection's watcher, and then
dereferences the NULL peer record — one live Connection plus a crash, with
every socket and attachment still held. -/
theorem accept_cb_peer_record_alloc_failure_starts_one_connection :
    liveConns (accept_cb_model ⟨true, true, true, true, true, false⟩) = 1 ∧
    (accept_cb_model ⟨true, true, true, true, true, false⟩).crashed = true ∧
    (accept_cb_model ⟨true, true, true, true, true, false⟩).newso_open = true := by
  decide

/-- C2: the claim says each skipped byte is counted in exactly one emitted
marker, so for two threshold-length printable runs each followed by one
non-printable byte both markers read `<1>`.  The code never resets `skipped`
after printing a marker (lines 172-177), so the second marker re-counts the
first skipped byte: the actual output ends in `<2>` and the marker sum is 3
for 2 non-printable bytes. -/
theorem render_marker_double_counts :
    renderStr (List.replicate 10 65 ++ [0] ++ List.replicate 10 66 ++ [0]) =
      "AAAAAAAAAA<1>BBBBBBBBBB<2>" ∧
    renderStr (List.replicate 10 65 ++ [0] ++ List.replicate 10 66 ++ [0]) ≠
      "AAAAAAAAAA<1>BBBBBBBBBB<1>" := by
  decide

/-- C3 counterexample: the claim says a zero availability with no error is
treated as fatal to this Connection only (stop watcher, close socket, free
record).  In the code, `assert(max_read != 0)` at line 130 fires first: the
handler aborts the whole process instead of taking the teardown path. -/
theorem passive_receive_zero_available_aborts :
    passive_receive 0 0 0 0 = ReadResult.abortProcess ∧
    passive_receive 0 0 0 0 ≠ ReadResult.teardown err_teardown := by
  decide

/-- C3 amended: a negative availability result (an outstanding error) is
fatal to this Connection only — the handler stops the watcher, closes the
socket and frees the record, in that order — while an availability of
exactly zero trips the assertion instead. -/
theorem passive_receive_negative_teardown :
    ∀ (b : Nat) (m e : Int) (r : Nat), m < 0 →
      passive_receive b m e r = ReadResult.teardown err_teardown := by
  intro b m e r hm
  unfold passive_receive
  rw [if_pos (le_of_lt hm), if_neg (by omega)]

/-- Witness for the amended C3 theorem at a concrete negative availability. -/
theorem passive_receive_negative_teardown_witness :
    passive_receive 0 (-1) 0 0 = ReadResult.teardown err_teardown :=
  passive_receive_negative_teardown 0 (-1) 0 0 (by decide)

/-- C4: the claim says each side's label holds the local address and the
peer address as two distinct fields.  In the code both `uinet_inet_ntoa`
calls of one snprintf write into `buf1` (lines 251-252 and 265-266), so both
`%s` fields print the same buffer: with local 10:20 and peer 30:40 the label
reads `SERVER (30:20 <- 30:40)`, not `SERVER (10:20 <- 30:40)`. -/
theorem mk_label_duplicates_peer_address :
    mk_label "SERVER" toString 10 20 30 40 = "SERVER (30:20 <- 30:40)" ∧
    mk_label "SERVER" toString 10 20 30 40 ≠ "SERVER (10:20 <- 30:40)" := by
  decide

/-- C6: rendering 10 printable bytes, 3 non-printable bytes, then 2 trailing
printable bytes produces exactly `AAAAAAAAAA<3>BB` — the trailing short run
is flushed at end-of-span despite being below the threshold. -/
theorem render_trailing_short_run_flushed :
    renderStr (List.replicate 10 65 ++ [0, 0, 0] ++ [66, 66]) =
      "AAAAAAAAAA<3>BB" := by
  decide

/-- One successful read with a positive availability advances the counter by
the read size, modulo 2^64. -/
theorem read_step_pos (b a : Nat) (ha : 0 < a) :
    read_step b a = (b + read_size_of a) % 2 ^ 64 := by
  simp [read_step, passive_receive, ha.ne']

/-- Counter after a run of successful reads, as long as the total stays below
2^64 (no uint64 wraparound). -/
theorem run_reads_eq : ∀ (l : List Nat) (b : Nat),
    (∀ a ∈ l, 0 < a) → b + (l.map read_size_of).sum < 2 ^ 64 →
    run_reads b l = b + (l.map read_size_of).sum := by
  intro l
  induction l with
  | nil => intro b _ _; simp [run_reads]
  | cons a t ih =>
    intro b hpos hov
    have ha : 0 < a := hpos a (by simp)
    simp only [List.map_cons, List.sum_cons] at hov
    have hstep : read_step b a = b + read_size_of a := by
      rw [read_step_pos b a ha]
      exact Nat.mod_eq_of_lt (by omega)
    have hrest : ∀ x ∈ t, 0 < x := fun x hx => hpos x (by simp [hx])
    have hfold : run_reads b (a :: t) = run_reads (read_step b a) t := rfl
    rw [hfold, hstep, ih (b + read_size_of a) hrest (by omega)]
    simp only [List.map_cons, List.sum_cons]
    omega

/-- C5: after N successful reads the byte counter equals the sum of the N
read sizes, each read size being min(available, 64*1024 - 1); the counter is
non-decreasing over any prefix of the read sequence; and the counter is
updated only by a receive that returned no error with residual 0. -/
theorem bytes_read_counter_sum (l : List Nat)
    (hpos : ∀ a ∈ l, 0 < a)
    (hov : (l.map read_size_of).sum < 2 ^ 64) :
    run_reads 0 l = (l.map read_size_of).sum ∧
    (∀ pre suf, l = pre ++ suf → run_reads 0 pre ≤ run_reads 0 l) ∧
    (∀ (b : Nat) (m e : Int) (r : Nat) (b' : Nat),
        passive_receive b m e r = ReadResult.proceed b' →
        e = 0 ∧ r = 0 ∧ b' = (b + read_size_of m.toNat) % 2 ^ 64) := by
  refine ⟨?_, ?_, ?_⟩
  · have h := run_reads_eq l 0 hpos (by omega)
    simpa using h
  · intro pre suf hl
    subst hl
    have hpre : ∀ a ∈ pre, 0 < a := fun a ha => hpos a (List.mem_append_left _ ha)
    have hsum : (pre.map read_size_of).sum ≤ ((pre ++ suf).map read_size_of).sum := by
      simp [List.map_append, List.sum_append]
    have h1 : run_reads 0 pre = (pre.map read_size_of).sum := by
      have h := run_reads_eq pre 0 hpre (by omega)
      simpa using h
    have h2 : run_reads 0 (pre ++ suf) = ((pre ++ suf).map read_size_of).sum := by
      have h := run_reads_eq (pre ++ suf) 0 hpos (by omega)
      simpa using h
    omega
  · intro b m e r b' h
    unfold passive_receive at h
    repeat' split at h
    all_goals simp_all

/-- Witness for C5 at a concrete read trace: availabilities 5 and 100000
yield read sizes 5 and 65535, total 65540. -/
theorem bytes_read_counter_sum_witness :
    run_reads 0 [5, 100000] = 65540 := by
  have h := (bytes_read_counter_sum [5, 100000] (by decide) (by decide)).1
  exact h.trans (by decide)

/-- Scanning a span of printable bytes only extends the current run; output
and skipped counter are untouched. -/
theorem foldl_printable : ∀ (l : List Nat) (st : RenderSt),
    (∀ b ∈ l, is_printable b = true) →
    l.foldl render_step st = { st with run := st.run ++ l } := by
  intro l
  induction l with
  | nil => intro st _; simp
  | cons a t ih =>
    intro st h
    have ha := h a (by simp)
    have hrest : ∀ b ∈ t, is_printable b = true := fun b hb => h b (by simp [hb])
    show List.foldl render_step (render_step st a) t = _
    rw [show render_step st a = { st with run := st.run ++ [a] } from by
      simp [render_step, ha]]
    rw [ih _ hrest]
    simp

/-- Scanning a span of non-printable bytes from an empty run only counts
them into the skipped counter. -/
theorem foldl_nonprintable : ∀ (l : List Nat) (out : List Tok) (sk : Nat),
    (∀ b ∈ l, is_printable b = false) →
    l.foldl render_step ⟨out, [], sk⟩ = ⟨out, [], sk + l.length⟩ := by
  intro l
  induction l with
  | nil => intro out sk _; simp
  | cons a t ih =>
    intro out sk h
    have ha := h a (by simp)
    have hrest : ∀ b ∈ t, is_printable b = false := fun b hb => h b (by simp [hb])
    show List.foldl render_step (render_step ⟨out, [], sk⟩ a) t = _
    have hstep : render_step ⟨out, [], sk⟩ a = ⟨out, [], sk + 1⟩ := by
      simp [render_step, ha, print_threshold]
    rw [hstep, ih _ _ hrest]
    simp only [RenderSt.mk.injEq, List.length_cons, true_and]
    omega

/-- The printed characters of a lone marker token form the literal string
made of an opening angle bracket, the decimal count, and a closing one. -/
theorem string_mk_marker (n : Nat) :
    String.mk ('<' :: (toString n).data ++ ['>']) = "<" ++ toString n ++ ">" := by
  rcases toString n with ⟨cs⟩
  rfl

/-- C7: the renderer is the identity on an all-printable span (a single text
token, no marker), and renders an all-non-printable nonempty span of length
L as exactly the marker text `<L>`.  The nonemptiness premise matches every
actual invocation: the handler only renders spans of read_size ≥ 1 bytes. -/
theorem render_all_printable_and_all_skipped :
    (∀ l : List Nat, (∀ b ∈ l, is_printable b = true) →
        render l = [Tok.text l] ∧
        renderStr l = String.mk (l.map Char.ofNat)) ∧
    (∀ l : List Nat, l ≠ [] → (∀ b ∈ l, is_printable b = false) →
        render l = [Tok.marker l.length, Tok.text []] ∧
        renderStr l = "<" ++ toString l.length ++ ">") := by
  constructor
  · intro l h
    have h1 : render l = [Tok.text l] := by
      unfold render
      rw [foldl_printable l ⟨[], [], 0⟩ h]
      simp [render_finish]
    refine ⟨h1, ?_⟩
    unfold renderStr
    rw [h1]
    simp [tokChars]
  · intro l hne h
    have h1 : render l = [Tok.marker l.length, Tok.text []] := by
      unfold render
      rw [foldl_nonprintable l [] 0 h]
      have hlen : l.length ≠ 0 := fun hl => hne (List.length_eq_zero.mp hl)
      simp [render_finish, hlen]
    refine ⟨h1, ?_⟩
    unfold renderStr
    rw [h1]
    have h2 : (List.map tokChars [Tok.marker l.length, Tok.text []]).flatten =
        '<' :: (toString l.length).data ++ ['>'] := by
      simp [tokChars]
    rw [h2]
    exact string_mk_marker l.length

/-- Witness for C7 at two concrete spans: printable bytes render verbatim
and a single non-printable byte renders as its count. -/
theorem render_all_printable_and_all_skipped_witness :
    renderStr [65, 66, 67] = "ABC" ∧ renderStr [1] = "<1>" := by
  refine ⟨?_, ?_⟩
  · exact ((render_all_printable_and_all_skipped.1 [65, 66, 67]
      (by decide)).2).trans (by decide)
  · exact ((render_all_printable_and_all_skipped.2 [1] (by decide)
      (by decide)).2).trans (by decide)

/-- C9: when listener construction succeeds, the listener socket has been
set non-blocking and configured with exactly TCP_NODELAY=1, TCP_KEEPINIT=5,
TCP_KEEPIDLE=1, TCP_KEEPINTVL=1, TCP_KEEPCNT=5 and TCP_REASSDL=2, in that
order; and whenever construction fails, no listener is returned and the loop
attachment, the socket and the record are all released, with no accept
watcher left started. -/
theorem create_passive_options_and_rollback :
    ∀ (env : CreateEnv) (promisc : Bool),
      ((create_passive_model env promisc).passive = false →
        (create_passive_model env promisc).soctx_attached = false ∧
        (create_passive_model env promisc).listener_open = false ∧
        (create_passive_model env promisc).record_alloc = false ∧
        (create_passive_model env promisc).watcher_started = false) ∧
      ((create_passive_model env promisc).passive = true →
        (create_passive_model env promisc).nonblocking_set = true ∧
        (create_passive_model env promisc).opts = cp_opts_all) := by
  intro env promisc
  by_cases h1 : env.pton_ok = false
  · simp [create_passive_model, h1, cp_fail]
  by_cases h2 : env.socreate_ok = false
  · simp [create_passive_model, h1, h2, cp_fail]
  by_cases h3 : env.attach_ok = false
  · simp [create_passive_model, h1, h2, h3, cp_fail]
  by_cases h4 : env.passive_ok = false
  · simp [create_passive_model, h1, h2, h3, h4, cp_fail]
  by_cases h5 : promisc = true ∧ env.promisc_ok = false
  · simp [create_passive_model, h1, h2, h3, h4, h5, cp_fail]
  by_cases h6 : env.nodelay_ok = false
  · simp [create_passive_model, h1, h2, h3, h4, h5, h6, cp_fail]
  by_cases h7 : env.keepinit_ok = false
  · simp [create_passive_model, h1, h2, h3, h4, h5, h6, h7, cp_fail]
  by_cases h8 : env.keepidle_ok = false
  · simp [create_passive_model, h1, h2, h3, h4, h5, h6, h7, h8, cp_fail]
  by_cases h9 : env.keepintvl_ok = false
  · simp [create_passive_model, h1, h2, h3, h4, h5, h6, h7, h8, h9, cp_fail]
  by_cases h10 : env.keepcnt_ok = false
  · simp [create_passive_model, h1, h2, h3, h4, h5, h6, h7, h8, h9, h10,
      cp_fail]
  by_cases h11 : env.reassdl_ok = false
  · simp [create_passive_model, h1, h2, h3, h4, h5, h6, h7, h8, h9, h10, h11,
      cp_fail]
  by_cases h12 : env.malloc_ok = false
  · simp [create_passive_model, h1, h2, h3, h4, h5, h6, h7, h8, h9, h10, h11,
      h12, cp_fail]
  by_cases h13 : env.bind_ok = false
  · simp [create_passive_model, h1, h2, h3, h4, h5, h6, h7, h8, h9, h10, h11,
      h12, h13, cp_fail]
  by_cases h14 : env.listen_ok = false
  · simp [create_passive_model, h1, h2, h3, h4, h5, h6, h7, h8, h9, h10, h11,
      h12, h13, h14, cp_fail]
  simp [create_passive_model, h1, h2, h3, h4, h5, h6, h7, h8, h9, h10, h11,
    h12, h13, h14, cp_fail]

/-- Witness for C9 with every collaborator call succeeding and promiscuity
not requested: a listener is returned with the full option list set. -/
theorem create_passive_options_and_rollback_witness :
    (create_passive_model
        ⟨true, true, true, true, true, true, true, true, true, true, true,
          true, true, true⟩ false).passive = true ∧
    (create_passive_model
        ⟨true, true, true, true, true, true, true, true, true, true, true,
          true, true, true⟩ false).opts = cp_opts_all := by
  refine ⟨by decide, ?_⟩
  exact ((create_passive_options_and_rollback
    ⟨true, true, true, true, true, true, true, true, true, true, true,
      true, true, true⟩ false).2 (by decide)).2

/-- Reading back the position just written by List.set. -/
theorem getD_set_self : ∀ (l : List Bool) (i : Nat) (a : Bool),
    i < l.length → (l.set i a).getD i false = a := by
  intro l
  induction l with
  | nil => intro i a h; simp at h
  | cons b t ih =>
    intro i a h
    cases i with
    | zero => simp
    | succ j =>
      simp only [List.set_cons_succ, List.getD_cons_succ]
      exact ih j a (by simpa using h)

/-- Setting one flag to true never clears another flag. -/
theorem getD_set_true_mono : ∀ (l : List Bool) (i j : Nat),
    l.getD j false = true → (l.set i true).getD j false = true := by
  intro l
  induction l with
  | nil => intro i j h; simp [List.getD] at h
  | cons b t ih =>
    intro i j h
    cases i with
    | zero =>
      cases j with
      | zero => simp
      | succ k => simpa using h
    | succ i' =>
      cases j with
      | zero => simpa using h
      | succ k =>
        simp only [List.set_cons_succ, List.getD_cons_succ] at h ⊢
        exact ih i' k h

/-- getD through map at an in-range index. -/
theorem getD_map_anyFlag (pton : String → Option Nat) :
    ∀ (l : List SrvCfg) (i : Nat) (hi : i < l.length),
      (l.map (anyFlag pton)).getD i false = anyFlag pton (l.get ⟨i, hi⟩) := by
  intro l
  induction l with
  | nil => intro i hi; simp at hi
  | cons s t ih =>
    intro i hi
    cases i with
    | zero => simp
    | succ j =>
      simp only [List.map_cons, List.getD_cons_succ]
      exact ih j (by simpa using hi)

/-- One validation-loop iteration that did not abort: the promiscuity flags
keep their length, true flags persist, the server's addrany mark is appended,
and the owning interface's flag becomes true for a port-0 or wildcard-address
server. -/
theorem validate_step_some (pton : String → Option Nat) (pm anys : List Bool)
    (s : SrvCfg) (pm₁ anys₁ : List Bool)
    (h : validate_step pton (some (pm, anys)) s = some (pm₁, anys₁)) :
    pm₁.length = pm.length ∧
    (∀ j, pm.getD j false = true → pm₁.getD j false = true) ∧
    anys₁ = anys ++ [anyFlag pton s] ∧
    (s.iface < pm.length →
      (s.listen_port = 0 ∨ pton s.listen_addr = some UINET_INADDR_ANY) →
      pm₁.getD s.iface false = true) := by
  have hXlen : (if s.listen_port = 0 then pm.set s.iface true else pm).length
      = pm.length := by
    split <;> simp
  have hXmono : ∀ j, pm.getD j false = true →
      (if s.listen_port = 0 then pm.set s.iface true else pm).getD j false
        = true := by
    intro j hj
    split
    · exact getD_set_true_mono pm s.iface j hj
    · exact hj
  have hXzero : s.listen_port = 0 → s.iface < pm.length →
      (if s.listen_port = 0 then pm.set s.iface true else pm).getD s.iface
        false = true := by
    intro hz hlen
    rw [if_pos hz]
    exact getD_set_self pm s.iface true hlen
  simp only [validate_step] at h
  by_cases h1 : s.listen_port = -1
  · simp [h1] at h
  rw [if_neg h1] at h
  by_cases h2 : s.listen_port < 0 ∨ s.listen_port > 65535
  · simp [h2] at h
  rw [if_neg h2] at h
  cases hp : pton s.listen_addr with
  | none => simp [hp] at h
  | some a =>
    rw [hp] at h
    dsimp only at h
    by_cases ha : a = UINET_INADDR_ANY
    · rw [if_pos ha] at h
      simp only [Option.some.injEq, Prod.mk.injEq] at h
      obtain ⟨hpm, hanys⟩ := h
      subst hpm
      subst hanys
      refine ⟨by simp [hXlen], ?_, ?_, ?_⟩
      · intro j hj
        exact getD_set_true_mono _ s.iface j (hXmono j hj)
      · simp [anyFlag, hp, ha]
      · intro hlen _
        exact getD_set_self _ s.iface true (by rw [hXlen]; exact hlen)
    · rw [if_neg ha] at h
      simp only [Option.some.injEq, Prod.mk.injEq] at h
      obtain ⟨hpm, hanys⟩ := h
      subst hpm
      subst hanys
      refine ⟨hXlen, hXmono, ?_, ?_⟩
      · simp [anyFlag, hp, ha]
      · intro hlen hcond
        rcases hcond with hz | hw
        · exact hXzero hz hlen
        · exact absurd (Option.some.inj hw) ha

/-- An aborted validation loop stays aborted. -/
theorem validate_foldl_none (pton : String → Option Nat) :
    ∀ (l : List SrvCfg), l.foldl (validate_step pton) none = none := by
  intro l
  induction l with
  | nil => rfl
  | cons s t ih =>
    simp only [List.foldl_cons]
    exact ih

/-- Invariants of the whole validation loop: flag-vector length preserved,
true flags persist, addrany marks are exactly the per-server wildcard tests
in order, and every port-0 or wildcard server ends with its interface's
promiscuity flag true. -/
theorem validate_fold (pton : String → Option Nat) :
    ∀ (l : List SrvCfg) (pm anys pm' anys' : List Bool),
      l.foldl (validate_step pton) (some (pm, anys)) = some (pm', anys') →
      pm'.length = pm.length ∧
      (∀ j, pm.getD j false = true → pm'.getD j false = true) ∧
      anys' = anys ++ l.map (anyFlag pton) ∧
      (∀ s ∈ l, s.iface < pm.length →
        (s.listen_port = 0 ∨ pton s.listen_addr = some UINET_INADDR_ANY) →
        pm'.getD s.iface false = true) := by
  intro l
  induction l with
  | nil =>
    intro pm anys pm' anys' h
    simp only [List.foldl_nil, Option.some.injEq, Prod.mk.injEq] at h
    obtain ⟨hpm, hanys⟩ := h
    subst hpm
    subst hanys
    exact ⟨rfl, fun j hj => hj, by simp, by simp⟩
  | cons s t ih =>
    intro pm anys pm' anys' h
    simp only [List.foldl_cons] at h
    cases hstep : validate_step pton (some (pm, anys)) s with
    | none =>
      rw [hstep, validate_foldl_none pton t] at h
      exact Option.noConfusion h
    | some p1 =>
      obtain ⟨pm₁, anys₁⟩ := p1
      rw [hstep] at h
      have hs := validate_step_some pton pm anys s pm₁ anys₁ hstep
      have hi := ih pm₁ anys₁ pm' anys' h
      refine ⟨hi.1.trans hs.1, fun j hj => hi.2.1 j (hs.2.1 j hj), ?_, ?_⟩
      · rw [hi.2.2.1, hs.2.2.1]
        simp
      · intro x hx hxlen hcond
        rcases List.mem_cons.mp hx with hx1 | hx2
        · subst hx1
          exact hi.2.1 _ (hs.2.2.2 hxlen hcond)
        · exact hi.2.2.2 x hx2 (hs.1.symm ▸ hxlen) hcond

/-- C8: for every server that passes startup validation with listen port 0,
the owning interface's promiscuity flag is already true in the flag vector
handed to interface creation — validation completes before any interface or
listener is built. -/
theorem port_zero_forces_interface_promisc :
    ∀ (pton : String → Option Nat) (servers : List SrvCfg) (pm0 : List Bool)
      (tr : StartupTrace),
      main_startup pton servers pm0 = some tr →
      ∀ s ∈ servers, s.iface < pm0.length → s.listen_port = 0 →
      tr.ifcreate_promisc.getD s.iface false = true := by
  intro pton servers pm0 tr h s hs hlen hport
  unfold main_startup at h
  cases hv : validate_servers pton servers pm0 with
  | none =>
    rw [hv] at h
    exact Option.noConfusion h
  | some pa =>
    obtain ⟨pm, anys⟩ := pa
    rw [hv] at h
    injection h with h'
    subst h'
    unfold validate_servers at hv
    have hf := validate_fold pton servers pm0 [] pm anys hv
    exact hf.2.2.2 s hs hlen (Or.inl hport)

/-- Witness for C8: one server on interface 0 with port 0 and a concrete
unicast address passes validation and interface 0 is created promiscuous. -/
theorem port_zero_forces_interface_promisc_witness :
    main_startup ptonW [⟨"10.0.0.1", 0, 0⟩] [false] =
      some ⟨[true], [false], [0]⟩ ∧
    (⟨[true], [false], [0]⟩ : StartupTrace).ifcreate_promisc.getD 0 false
      = true := by
  refine ⟨by decide, ?_⟩
  exact port_zero_forces_interface_promisc ptonW [⟨"10.0.0.1", 0, 0⟩] [false]
    ⟨[true], [false], [0]⟩ (by decide) ⟨"10.0.0.1", 0, 0⟩ (by decide)
    (by decide) (by decide)

/-- C10: for every validated server whose listen address parses to the IPv4
wildcard (INADDR_ANY), startup marks the server address-any, forces the
owning interface's promiscuity flag true before interface creation, and adds
no address alias to the interface for that server. -/
theorem wildcard_address_forces_promisc_no_alias :
    ∀ (pton : String → Option Nat) (servers : List SrvCfg) (pm0 : List Bool)
      (tr : StartupTrace),
      main_startup pton servers pm0 = some tr →
      ∀ (i : Nat) (hi : i < servers.length),
        pton (servers.get ⟨i, hi⟩).listen_addr = some UINET_INADDR_ANY →
        (servers.get ⟨i, hi⟩).iface < pm0.length →
        tr.addrany.getD i false = true ∧
        tr.ifcreate_promisc.getD (servers.get ⟨i, hi⟩).iface false = true ∧
        i ∉ tr.alias_srv_idx := by
  intro pton servers pm0 tr h i hi hwild hlen
  unfold main_startup at h
  cases hv : validate_servers pton servers pm0 with
  | none =>
    rw [hv] at h
    exact Option.noConfusion h
  | some pa =>
    obtain ⟨pm, anys⟩ := pa
    rw [hv] at h
    injection h with h'
    subst h'
    unfold validate_servers at hv
    have hf := validate_fold pton servers pm0 [] pm anys hv
    have hanys : anys = servers.map (anyFlag pton) := by
      have := hf.2.2.1
      simpa using this
    have hflag : anys.getD i false = true := by
      rw [hanys, getD_map_anyFlag pton servers i hi]
      unfold anyFlag
      rw [hwild]
      simp
    refine ⟨hflag, ?_, ?_⟩
    · exact hf.2.2.2 _ (List.get_mem servers i hi) hlen (Or.inr hwild)
    · intro hmemF
      have hpred := (List.mem_filter.mp hmemF).2
      rw [List.getD_eq_getElem?_getD] at hflag
      simp [hflag] at hpred

/-- Witness for C10: one server with address 0.0.0.0 and port 80 passes
validation; it is marked address-any, interface 0 becomes promiscuous, and
the alias loop skips it. -/
theorem wildcard_address_forces_promisc_no_alias_witness :
    main_startup ptonW [⟨"0.0.0.0", 80, 0⟩] [false] =
      some ⟨[true], [true], []⟩ ∧
    (⟨[true], [true], []⟩ : StartupTrace).addrany.getD 0 false = true ∧
    (0 : Nat) ∉ (⟨[true], [true], []⟩ : StartupTrace).alias_srv_idx := by
  have h := wildcard_address_forces_promisc_no_alias ptonW
    [⟨"0.0.0.0", 80, 0⟩] [false] ⟨[true], [true], []⟩ (by decide) 0
    (by decide) (by decide) (by decide)
  exact ⟨by decide, h.1, h.2.2⟩

end Passive
